import Mathlib

/-!
Shallow embedding of the SkateSpot application (Ambush3/SkateSpotApp).

The application is a single map screen over a hosted relational backend.
The mutable screen state (spot list, error banner, loading flag, detail
modal, selected spot, loaded reviews, review form fields) is embedded as
the structure `AppState`.  Each event handler of `app/index.tsx`
(`reload`, `createSpotAt`, `deleteSpotById`, `loadReviews`,
`addReviewForSelectedSpot`) is embedded as a pure function from the state
and the backend's responses to the new state together with the list of
backend requests the handler issues; the backend responses are oracle
parameters, since the backend itself is an external collaborator.

JavaScript's `String.prototype.trim` is embedded as `jsTrim`, removing
whitespace characters from both ends of the character list.
-/

namespace SkateSpotApp

/-- JavaScript `String.prototype.trim`: remove whitespace from both
ends of the string, embedded on the character list of the string. -/
def jsTrim (s : String) : String :=
  ⟨(s.data.dropWhile Char.isWhitespace).rdropWhile Char.isWhitespace⟩

/-- The `Spot` row type of `app/index.tsx` (table `spots`). -/
structure Spot where
  id : String
  name : String
  description : Option String
  lat : ℚ
  lng : ℚ
  created_at : String
deriving DecidableEq, Repr

/-- The `Review` row type of `app/index.tsx` (table `reviews`; the
`comment` field is commented out in the source). -/
structure Review where
  id : String
  spot_id : String
  rating : ℚ
  created_at : String
deriving DecidableEq, Repr

/-- The ephemeral `Place` type of `app/index.tsx`, normalized from the
Overpass response. -/
structure Place where
  id : String
  name : String
  lat : ℚ
  lng : ℚ
  tags : List (String × String)
deriving DecidableEq, Repr

/-- The row inserted into the `spots` table by `createSpotAt`. -/
structure SpotInsertRow where
  name : String
  description : Option String
  lat : ℚ
  lng : ℚ
deriving DecidableEq, Repr

/-- The row inserted into the `reviews` table. -/
structure ReviewInsertRow where
  spot_id : String
  rating : ℚ
deriving DecidableEq, Repr

/-- One backend round-trip issued by a handler.  `selectSpots` carries
the `ascending` flag of `order('created_at', ...)` and the row limit. -/
inductive Request where
  | selectSpots (ascending : Bool) (limit : ℕ)
  | insertSpot (row : SpotInsertRow)
  | insertReview (row : ReviewInsertRow)
  | deleteSpot (id : String)
  | selectReviews (spot_id : String) (ascending : Bool)
deriving DecidableEq, Repr

/-- The mutable state of the map screen component of `app/index.tsx`
(the `useState` hooks the embedded handlers read or write). -/
structure AppState where
  spots : List Spot
  error : Option String
  loading : Bool
  detailsOpen : Bool
  selectedSpot : Option Spot
  spotReviews : List Review
  newReviewRating : ℚ
  newReviewComment : String
deriving DecidableEq, Repr

/-- Handler `reload` of `app/index.tsx`: clear the error, set loading, issue one
select on `spots` ordered by `created_at` descending limited to 500, and
on success replace the spot list with the returned rows (`data ?? []`);
on error surface the backend message. -/
def reload (st : AppState) (resp : Except String (Option (List Spot))) :
    AppState × List Request :=
  let st1 := { st with error := none, loading := true }
  let st2 := { st1 with loading := false }
  match resp with
  | .error msg => ({ st2 with error := some msg }, [Request.selectSpots false 500])
  | .ok data => ({ st2 with spots := data.getD [] }, [Request.selectSpots false 500])

/-- Expression `(description ?? \x27\x27).trim() || null` of `createSpotAt`: a missing or
whitespace-only description becomes `none`, any other description is
trimmed. -/
def normalizedDescription (description : Option String) : Option String :=
  let d := jsTrim (description.getD "")
  if d = "" then none else some d

/-- Handler `createSpotAt` of `app/index.tsx`.  `spotInsertResp` is the backend's
answer to the `spots` insert, `reviewInsertResp` the error (if any) of
the `reviews` insert; the second list component is the requests issued. -/
def createSpotAt (st : AppState) (lat lng : ℚ) (name : String)
    (description : Option String) (initialRating : Option ℚ)
    (spotInsertResp : Except String Spot) (reviewInsertResp : Option String) :
    AppState × List Request :=
  let st0 := { st with error := none }
  let trimmedName := jsTrim name
  if trimmedName = "" then
    ({ st0 with error := some "Name is required" }, [])
  else
    let row : SpotInsertRow :=
      { name := trimmedName, description := normalizedDescription description,
        lat := lat, lng := lng }
    match spotInsertResp with
    | .error msg => ({ st0 with error := some msg }, [Request.insertSpot row])
    | .ok spot =>
      if 0 < initialRating.getD 0 then
        let rrow : ReviewInsertRow := { spot_id := spot.id, rating := initialRating.getD 0 }
        match reviewInsertResp with
        | some msg =>
            ({ st0 with error := some msg, spots := spot :: st0.spots },
              [Request.insertSpot row, Request.insertReview rrow])
        | none =>
            ({ st0 with spots := spot :: st0.spots },
              [Request.insertSpot row, Request.insertReview rrow])
      else
        ({ st0 with spots := spot :: st0.spots }, [Request.insertSpot row])

/-- Handler `deleteSpotById` of `app/index.tsx`: clear the error, issue one
delete-by-id; on success keep only the spots whose id differs, and if
the selected spot has the deleted id, close the detail modal, clear the
selection and clear the loaded reviews. -/
def deleteSpotById (st : AppState) (id : String) (resp : Option String) :
    AppState × List Request :=
  let st0 := { st with error := none }
  match resp with
  | some msg => ({ st0 with error := some msg }, [Request.deleteSpot id])
  | none =>
    let st1 := { st0 with spots := st0.spots.filter (fun s => s.id ≠ id) }
    match st1.selectedSpot with
    | some sel =>
      if sel.id = id then
        ({ st1 with detailsOpen := false, selectedSpot := none, spotReviews := [] },
          [Request.deleteSpot id])
      else (st1, [Request.deleteSpot id])
    | none => (st1, [Request.deleteSpot id])

/-- Handler `loadReviews` of `app/index.tsx`: one select on `reviews` filtered by
spot id, ordered by `created_at` descending; on success replace the
loaded reviews with `data ?? []`. -/
def loadReviews (st : AppState) (spotId : String)
    (resp : Except String (Option (List Review))) : AppState × List Request :=
  match resp with
  | .error msg => ({ st with error := some msg }, [Request.selectReviews spotId false])
  | .ok data => ({ st with spotReviews := data.getD [] }, [Request.selectReviews spotId false])

/-- Derived value `avgRating` of `app/index.tsx`: 0 for an empty review list, otherwise
the `reduce` sum of the ratings divided by the length. -/
def avgRating (spotReviews : List Review) : ℚ :=
  if spotReviews.length = 0 then 0
  else spotReviews.foldl (fun sum r => sum + r.rating) 0 / spotReviews.length

/-- Handler `addReviewForSelectedSpot` of `app/index.tsx`: no-op without a
selected spot; reject a non-positive rating with an error banner and no
insert; otherwise insert the review, and on success reset the form and
reload the reviews of the selected spot. -/
def addReviewForSelectedSpot (st : AppState) (insertResp : Option String)
    (reviewsResp : Except String (Option (List Review))) : AppState × List Request :=
  match st.selectedSpot with
  | none => (st, [])
  | some sel =>
    let st0 := { st with error := none }
    if st.newReviewRating ≤ 0 then
      ({ st0 with error := some "Please choose a rating." }, [])
    else
      let rrow : ReviewInsertRow := { spot_id := sel.id, rating := st.newReviewRating }
      match insertResp with
      | some msg => ({ st0 with error := some msg }, [Request.insertReview rrow])
      | none =>
        let st1 := { st0 with newReviewRating := 0, newReviewComment := "" }
        let step := loadReviews st1 sel.id reviewsResp
        (step.1, Request.insertReview rrow :: step.2)

/-- The values the `Stars` rating control of `app/index.tsx` can pass to
its `onChange` callback: one press per star in `[1, 2, 3, 4, 5]`. -/
def starsValues : List ℕ := [1, 2, 3, 4, 5]

/-- An element of the Overpass response's `elements` array, as read by
`loadNearbySkateShops`: optional direct coordinates (`el.lat`, `el.lon`),
optional `center` coordinates for ways/relations, and an optional tag
record. -/
structure OverpassCenter where
  lat : Option ℚ
  lon : Option ℚ
deriving DecidableEq, Repr

structure OverpassElement where
  type : String
  id : ℕ
  lat : Option ℚ
  lon : Option ℚ
  center : Option OverpassCenter
  tags : Option (List (String × String))
deriving DecidableEq, Repr

/-- Expression `el.tags?.[key]`: optional-chained lookup in the tag record. -/
def tagLookup (tags : Option (List (String × String))) (key : String) : Option String :=
  tags.bind (fun ts => ts.lookup key)

/-- Expression `el.lat ?? el.center?.lat` of `loadNearbySkateShops`. -/
def resolvedLat (el : OverpassElement) : Option ℚ :=
  el.lat.or (el.center.bind OverpassCenter.lat)

/-- Expression `el.lon ?? el.center?.lon` of `loadNearbySkateShops`. -/
def resolvedLon (el : OverpassElement) : Option ℚ :=
  el.lon.or (el.center.bind OverpassCenter.lon)

/-- The display name chosen by `loadNearbySkateShops`:
`el.tags?.name ?? (el.tags?.leisure === 'skate_park' ? 'Skate park' : 'Skate shop')`. -/
def elementName (el : OverpassElement) : String :=
  match tagLookup el.tags "name" with
  | some n => n
  | none => if tagLookup el.tags "leisure" = some "skate_park" then "Skate park" else "Skate shop"

/-- The body of the `map` callback of `loadNearbySkateShops`: `null`
(here `none`) when the resolved latitude or longitude is not a number,
otherwise the normalized `Place`. -/
def normalizeElement (el : OverpassElement) : Option Place :=
  match resolvedLat el, resolvedLon el with
  | some la, some ln =>
      some { id := el.type ++ "-" ++ toString el.id, name := elementName el,
             lat := la, lng := ln, tags := el.tags.getD [] }
  | _, _ => none

/-- Expression `.map(...).filter(Boolean)` of `loadNearbySkateShops`. -/
def normalizePlaces (elements : List OverpassElement) : List Place :=
  elements.filterMap normalizeElement

/-- Default value of the `limit` parameter of `listSpots` in
`src/libs/spots.ts`. -/
def listSpotsDefaultLimit : ℕ := 100

/-- Helper `listSpots` of `src/libs/spots.ts`, characterized by the single
select it issues: ordered by `created_at` descending, limited to the
caller-supplied `limit` (default `listSpotsDefaultLimit`). -/
def listSpots (limit : ℕ) : List Request :=
  [Request.selectSpots false limit]

/-! Concrete fixtures used by witness theorems. -/

def spotEx : Spot :=
  { id := "s1", name := "Ledge", description := none, lat := 42, lng := -85,
    created_at := "t0" }

def spotEx2 : Spot :=
  { id := "s2", name := "Rail", description := some "smooth", lat := 43, lng := -84,
    created_at := "t1" }

def reviewEx3 : Review := { id := "r1", spot_id := "s1", rating := 3, created_at := "t2" }

def reviewEx5 : Review := { id := "r2", spot_id := "s1", rating := 5, created_at := "t3" }

def stEx : AppState :=
  { spots := [spotEx2], error := none, loading := false, detailsOpen := false,
    selectedSpot := none, spotReviews := [], newReviewRating := 0, newReviewComment := "" }

def stSel : AppState :=
  { spots := [spotEx, spotEx2], error := none, loading := false, detailsOpen := true,
    selectedSpot := some spotEx, spotReviews := [reviewEx3], newReviewRating := 3,
    newReviewComment := "" }

/-! Claim theorems. -/

/-- C1: when the spot insert succeeds, the initial rating is positive and
the subsequent review insert returns an error, `createSpotAt` sets the
error state to the review error's message and still prepends the newly
created spot to the local spots list. -/
theorem createSpotAt_review_error_keeps_spot (st : AppState) (lat lng : ℚ)
    (name : String) (description : Option String) (initialRating : Option ℚ)
    (spot : Spot) (msg : String) (hname : jsTrim name ≠ "")
    (hr : 0 < initialRating.getD 0) :
    (createSpotAt st lat lng name description initialRating
        (.ok spot) (some msg)).1.error = some msg ∧
    (createSpotAt st lat lng name description initialRating
        (.ok spot) (some msg)).1.spots = spot :: st.spots := by
  simp [createSpotAt, hname, hr]

/-- Witness for C1 at a concrete call. -/
theorem createSpotAt_review_error_keeps_spot_witness :
    (createSpotAt stEx 1 2 "Ledge" none (some 3) (.ok spotEx) (some "boom")).1.error
        = some "boom" ∧
    (createSpotAt stEx 1 2 "Ledge" none (some 3) (.ok spotEx) (some "boom")).1.spots
        = spotEx :: stEx.spots :=
  createSpotAt_review_error_keeps_spot stEx 1 2 "Ledge" none (some 3) spotEx "boom"
    (by decide) (by decide)

/-- C2: a name whose trimmed form is empty is rejected with the error
'Name is required', no backend request is issued and the spots list is
unchanged; a name with non-empty trimmed form leads to a spots insert
carrying the trimmed name and the verbatim lat/lng arguments. -/
theorem createSpotAt_validates_name (st : AppState) (lat lng : ℚ) (name : String)
    (description : Option String) (initialRating : Option ℚ)
    (spotInsertResp : Except String Spot) (reviewInsertResp : Option String) :
    (jsTrim name = "" →
      (createSpotAt st lat lng name description initialRating
          spotInsertResp reviewInsertResp).1.error = some "Name is required" ∧
      (createSpotAt st lat lng name description initialRating
          spotInsertResp reviewInsertResp).1.spots = st.spots ∧
      (createSpotAt st lat lng name description initialRating
          spotInsertResp reviewInsertResp).2 = []) ∧
    (jsTrim name ≠ "" →
      ∃ rest,
        (createSpotAt st lat lng name description initialRating
            spotInsertResp reviewInsertResp).2 =
          Request.insertSpot
            { name := jsTrim name, description := normalizedDescription description,
              lat := lat, lng := lng } :: rest) := by
  constructor
  · intro h
    simp [createSpotAt, h]
  · intro h
    cases spotInsertResp with
    | error msg => exact ⟨[], by simp [createSpotAt, h]⟩
    | ok spot =>
      by_cases hr : 0 < initialRating.getD 0
      · cases reviewInsertResp with
        | none =>
            exact ⟨[Request.insertReview ⟨spot.id, initialRating.getD 0⟩],
              by simp [createSpotAt, h, hr]⟩
        | some m =>
            exact ⟨[Request.insertReview ⟨spot.id, initialRating.getD 0⟩],
              by simp [createSpotAt, h, hr]⟩
      · exact ⟨[], by simp [createSpotAt, h, hr]⟩

/-- Witness for C2: a blank name is rejected, a non-blank name leads to
the trimmed insert. -/
theorem createSpotAt_validates_name_witness :
    ((createSpotAt stEx 1 2 "   " none none (.ok spotEx) none).1.error
        = some "Name is required" ∧
      (createSpotAt stEx 1 2 "   " none none (.ok spotEx) none).1.spots = stEx.spots ∧
      (createSpotAt stEx 1 2 "   " none none (.ok spotEx) none).2 = []) ∧
    (∃ rest, (createSpotAt stEx 1 2 " Rail " none none (.ok spotEx) none).2 =
      Request.insertSpot
        { name := jsTrim " Rail ", description := normalizedDescription none,
          lat := 1, lng := 2 } :: rest) :=
  ⟨(createSpotAt_validates_name stEx 1 2 "   " none none (.ok spotEx) none).1 (by decide),
   (createSpotAt_validates_name stEx 1 2 " Rail " none none (.ok spotEx) none).2 (by decide)⟩

/-- The `reduce` of `avgRating` computes the sum of the ratings. -/
theorem foldl_add_rating (rs : List Review) (a : ℚ) :
    rs.foldl (fun sum r => sum + r.rating) a = a + (rs.map Review.rating).sum := by
  induction rs generalizing a with
  | nil => simp
  | cons r rs ih => simp [ih, add_assoc]

/-- C3: `avgRating` is 0 on an empty review list and otherwise the
arithmetic mean of the loaded ratings; on the review multiset {3, 5} it
equals 4. -/
theorem avgRating_is_mean (rs : List Review) :
    (rs = [] → avgRating rs = 0) ∧
    (rs ≠ [] → avgRating rs = (rs.map Review.rating).sum / rs.length) ∧
    avgRating [reviewEx3, reviewEx5] = 4 := by
  refine ⟨fun h => by simp [h, avgRating], fun h => ?_, ?_⟩
  · have hlen : rs.length ≠ 0 := by simpa using h
    simp [avgRating, hlen, foldl_add_rating]
  · norm_num [avgRating, reviewEx3, reviewEx5]

/-- Witness for C3 on concrete review lists. -/
theorem avgRating_is_mean_witness :
    avgRating [] = 0 ∧
    avgRating [reviewEx3] =
      (([reviewEx3] : List Review).map Review.rating).sum /
        ([reviewEx3] : List Review).length :=
  ⟨(avgRating_is_mean []).1 rfl, (avgRating_is_mean [reviewEx3]).2.1 (by simp)⟩

/-- Overpass fixtures: a node with direct coordinates, and a way with
neither direct nor centered coordinates. -/
def oelEx : OverpassElement :=
  { type := "node", id := 7, lat := some 42, lon := some (-85), center := none,
    tags := none }

def oelNoCoord : OverpassElement :=
  { type := "way", id := 8, lat := none, lon := none, center := none, tags := none }

def placeEx : Place :=
  { id := "node-7", name := "Skate shop", lat := 42, lng := -85, tags := [] }

/-- C4: an Overpass element is normalized into a `Place` exactly when it
has a resolvable latitude (direct `lat` or `center.lat`) and a
resolvable longitude (direct `lon` or `center.lon`); the normalized list
consists exactly of the normalizations of such elements, and direct
coordinates take precedence over centered ones. -/
theorem normalizePlaces_coordinate_filter (els : List OverpassElement)
    (el : OverpassElement) :
    ((∃ p, normalizeElement el = some p) ↔
      (el.lat.isSome ∨ (el.center.bind OverpassCenter.lat).isSome) ∧
      (el.lon.isSome ∨ (el.center.bind OverpassCenter.lon).isSome)) ∧
    (∀ p, p ∈ normalizePlaces els ↔ ∃ e ∈ els, normalizeElement e = some p) ∧
    (∀ q p, el.lat = some q → normalizeElement el = some p → p.lat = q) ∧
    (∀ q p, el.lon = some q → normalizeElement el = some p → p.lng = q) := by
  refine ⟨?_, fun p => List.mem_filterMap, ?_, ?_⟩
  · unfold normalizeElement resolvedLat resolvedLon
    cases hlat : el.lat <;> cases hlon : el.lon <;>
      cases hclat : el.center.bind OverpassCenter.lat <;>
      cases hclon : el.center.bind OverpassCenter.lon <;>
        simp [Option.or]
  · intro q p hq hp
    unfold normalizeElement at hp
    rw [show resolvedLat el = some q by simp [resolvedLat, hq, Option.or]] at hp
    cases hlon : resolvedLon el <;> rw [hlon] at hp <;> simp at hp
    exact (hp.symm ▸ rfl : p.lat = q)
  · intro q p hq hp
    unfold normalizeElement at hp
    rw [show resolvedLon el = some q by simp [resolvedLon, hq, Option.or]] at hp
    cases hlat : resolvedLat el <;> rw [hlat] at hp <;> simp at hp
    exact (hp.symm ▸ rfl : p.lng = q)

/-- Witness for C4: the node with direct coordinates is kept with those
coordinates, and the coordinate-free way is characterized by the same
equivalence. -/
theorem normalizePlaces_coordinate_filter_witness :
    (∃ p, normalizeElement oelEx = some p) ∧
    ¬ (∃ p, normalizeElement oelNoCoord = some p) ∧
    (placeEx ∈ normalizePlaces [oelEx, oelNoCoord] ↔
      ∃ e ∈ [oelEx, oelNoCoord], normalizeElement e = some placeEx) ∧
    placeEx.lat = 42 :=
  ⟨(normalizePlaces_coordinate_filter [oelEx, oelNoCoord] oelEx).1.mpr
      ⟨Or.inl (by decide), Or.inl (by decide)⟩,
   fun h => by
      have := (normalizePlaces_coordinate_filter [oelEx, oelNoCoord] oelNoCoord).1.mp h
      revert this
      decide,
   (normalizePlaces_coordinate_filter [oelEx, oelNoCoord] oelEx).2.1 placeEx,
   (normalizePlaces_coordinate_filter [oelEx, oelNoCoord] oelEx).2.2.1 42 placeEx
      rfl (by decide)⟩

/-- C5: a successful delete keeps exactly the spots whose id differs
(preserving their order, as a sublist of the previous list), and when
the selected spot carries the deleted id it closes the detail modal,
clears the selection and clears the loaded review list. -/
theorem deleteSpotById_success (st : AppState) (id : String) :
    (∀ s, s ∈ (deleteSpotById st id none).1.spots ↔ s ∈ st.spots ∧ s.id ≠ id) ∧
    (deleteSpotById st id none).1.spots.Sublist st.spots ∧
    (∀ sel, st.selectedSpot = some sel → sel.id = id →
      (deleteSpotById st id none).1.detailsOpen = false ∧
      (deleteSpotById st id none).1.selectedSpot = none ∧
      (deleteSpotById st id none).1.spotReviews = []) := by
  cases hsel : st.selectedSpot with
  | none =>
    refine ⟨fun s => ?_, ?_, fun sel hs => nomatch hs⟩
    · simp [deleteSpotById, hsel, List.mem_filter]
    · simp only [deleteSpotById, hsel]
      exact List.filter_sublist _
  | some sel0 =>
    by_cases hid : sel0.id = id
    · refine ⟨fun s => ?_, ?_, fun sel hs hsid => ?_⟩
      · simp [deleteSpotById, hsel, hid, List.mem_filter]
      · simp only [deleteSpotById, hsel, hid, if_true]
        exact List.filter_sublist _
      · simp [deleteSpotById, hsel, hid]
    · refine ⟨fun s => ?_, ?_, fun sel hs hsid => ?_⟩
      · simp [deleteSpotById, hsel, hid, List.mem_filter]
      · simp only [deleteSpotById, hsel, hid, if_false]
        exact List.filter_sublist _
      · cases hs
        exact absurd hsid hid

/-- Witness for C5: deleting the selected spot's id keeps the other spot
and closes the detail modal. -/
theorem deleteSpotById_success_witness :
    (spotEx2 ∈ (deleteSpotById stSel "s1" none).1.spots ↔
      spotEx2 ∈ stSel.spots ∧ spotEx2.id ≠ "s1") ∧
    (deleteSpotById stSel "s1" none).1.detailsOpen = false ∧
    (deleteSpotById stSel "s1" none).1.selectedSpot = none ∧
    (deleteSpotById stSel "s1" none).1.spotReviews = [] :=
  ⟨(deleteSpotById_success stSel "s1").1 spotEx2,
   ((deleteSpotById_success stSel "s1").2.2 spotEx rfl rfl).1,
   ((deleteSpotById_success stSel "s1").2.2 spotEx rfl rfl).2.1,
   ((deleteSpotById_success stSel "s1").2.2 spotEx rfl rfl).2.2⟩

/-- A non-empty doubly trimmed character list contains a non-whitespace
character. -/
theorem trimmed_has_solid_char (p : Char → Bool) (l : List Char)
    (h : (l.dropWhile p).rdropWhile p ≠ []) :
    ∃ c ∈ (l.dropWhile p).rdropWhile p, p c = false := by
  refine ⟨((l.dropWhile p).rdropWhile p).getLast h, List.getLast_mem h, ?_⟩
  have hnot := List.rdropWhile_last_not p (l.dropWhile p) h
  simpa using hnot

/-- C10: every spots insert issued by `createSpotAt` carries the
normalized description (missing or whitespace-only becomes null,
otherwise the trimmed text), and a normalized description is never the
empty string nor whitespace-only. -/
theorem createSpotAt_description_normalized (st : AppState) (lat lng : ℚ)
    (name : String) (description : Option String) (initialRating : Option ℚ)
    (spotInsertResp : Except String Spot) (reviewInsertResp : Option String) :
    (∀ row, Request.insertSpot row ∈
        (createSpotAt st lat lng name description initialRating
          spotInsertResp reviewInsertResp).2 →
      row.description = normalizedDescription description) ∧
    (normalizedDescription description = none ∨
      ∃ d, normalizedDescription description = some d ∧ d ≠ "" ∧
        ∃ c ∈ d.data, c.isWhitespace = false) := by
  constructor
  · intro row hrow
    by_cases hname : jsTrim name = ""
    · simp [createSpotAt, hname] at hrow
    · cases spotInsertResp with
      | error msg =>
        simp [createSpotAt, hname] at hrow
        simp [hrow]
      | ok spot =>
        by_cases hr : 0 < initialRating.getD 0
        · cases reviewInsertResp <;>
            · simp [createSpotAt, hname, hr] at hrow
              simp [hrow]
        · simp [createSpotAt, hname, hr] at hrow
          simp [hrow]
  · unfold normalizedDescription
    by_cases hd : jsTrim ((description.getD "")) = ""
    · exact Or.inl (by simp [hd])
    · refine Or.inr ⟨jsTrim (description.getD ""), by simp [hd], hd, ?_⟩
      have hne : ((description.getD "").data.dropWhile Char.isWhitespace).rdropWhile
          Char.isWhitespace ≠ [] := by
        intro hnil
        exact hd (congrArg String.mk hnil)
      have := trimmed_has_solid_char Char.isWhitespace (description.getD "").data hne
      simpa [jsTrim] using this

/-- Witness for C10 at a concrete call with a padded description. -/
theorem createSpotAt_description_normalized_witness :
    (Request.insertSpot
        { name := "Ledge", description := some "nice", lat := 1, lng := 2 } ∈
      (createSpotAt stEx 1 2 "Ledge" (some " nice ") none (.ok spotEx) none).2) ∧
    ({ name := "Ledge", description := some "nice", lat := 1, lng := 2 :
        SpotInsertRow }).description = normalizedDescription (some " nice ") :=
  ⟨by decide,
   (createSpotAt_description_normalized stEx 1 2 "Ledge" (some " nice ") none
      (.ok spotEx) none).1
     { name := "Ledge", description := some "nice", lat := 1, lng := 2 } (by decide)⟩

/-- C6 counterexample: with a positive initial rating and a successful
spot insert, `createSpotAt` issues two backend requests (a spots insert
followed by a reviews insert), not exactly one. -/
theorem createSpotAt_two_requests :
    ((createSpotAt stEx 1 2 "Ledge" none (some 3) (.ok spotEx) none).2).length = 2 ∧
    ((createSpotAt stEx 1 2 "Ledge" none (some 3) (.ok spotEx) none).2).length ≠ 1 := by
  decide

/-- C6 amended: reload issues exactly one select and a delete exactly one
delete-by-id; `createSpotAt` issues no request when the trimmed name is
blank, one spots insert when the spot insert fails, and otherwise one
spots insert plus one reviews insert exactly when the initial rating is
positive. -/
theorem spot_operations_request_counts (st : AppState)
    (resp : Except String (Option (List Spot))) (id : String) (dresp : Option String)
    (lat lng : ℚ) (name : String) (description : Option String)
    (initialRating : Option ℚ) (sresp : Except String Spot) (rresp : Option String) :
    (reload st resp).2.length = 1 ∧
    (deleteSpotById st id dresp).2.length = 1 ∧
    (jsTrim name = "" →
      (createSpotAt st lat lng name description initialRating sresp rresp).2.length = 0) ∧
    (jsTrim name ≠ "" → ∀ e, sresp = .error e →
      (createSpotAt st lat lng name description initialRating sresp rresp).2.length = 1) ∧
    (jsTrim name ≠ "" → ∀ spot, sresp = .ok spot →
      (createSpotAt st lat lng name description initialRating sresp rresp).2.length =
        if 0 < initialRating.getD 0 then 2 else 1) := by
  refine ⟨?_, ?_, fun h => by simp [createSpotAt, h], fun h e he => ?_, fun h spot hs => ?_⟩
  · cases resp <;> simp [reload]
  · cases dresp with
    | some m => simp [deleteSpotById]
    | none =>
      cases hsel : st.selectedSpot with
      | none => simp [deleteSpotById, hsel]
      | some sel => by_cases hid : sel.id = id <;> simp [deleteSpotById, hsel, hid]
  · subst he
    simp [createSpotAt, h]
  · subst hs
    by_cases hr : 0 < initialRating.getD 0
    · cases rresp <;> simp [createSpotAt, h, hr]
    · simp [createSpotAt, h, hr]

/-- Witness for C6 amended at concrete calls of each operation. -/
theorem spot_operations_request_counts_witness :
    (reload stEx (.ok none)).2.length = 1 ∧
    (deleteSpotById stEx "s2" none).2.length = 1 ∧
    (createSpotAt stEx 1 2 " " none none (.ok spotEx) none).2.length = 0 ∧
    (createSpotAt stEx 1 2 "Ledge" none none (.error "down") none).2.length = 1 ∧
    (createSpotAt stEx 1 2 "Ledge" none (some 3) (.ok spotEx) none).2.length =
      if 0 < (some (3 : ℚ)).getD 0 then 2 else 1 :=
  ⟨(spot_operations_request_counts stEx (.ok none) "s2" none 1 2 "Ledge" none
      (some 3) (.ok spotEx) none).1,
   (spot_operations_request_counts stEx (.ok none) "s2" none 1 2 "Ledge" none
      (some 3) (.ok spotEx) none).2.1,
   (spot_operations_request_counts stEx (.ok none) "s2" none 1 2 " " none
      none (.ok spotEx) none).2.2.1 (by decide),
   (spot_operations_request_counts stEx (.ok none) "s2" none 1 2 "Ledge" none
      none (.error "down") none).2.2.2.1 (by decide) "down" rfl,
   (spot_operations_request_counts stEx (.ok none) "s2" none 1 2 "Ledge" none
      (some 3) (.ok spotEx) none).2.2.2.2 (by decide) spotEx rfl⟩

/-- C7: the Stars control only produces ratings in {1, 2, 3, 4, 5}; a
non-positive rating is rejected with 'Please choose a rating.' and no
insert; and every reviews insert issued by `addReviewForSelectedSpot` or
by `createSpotAt` under a Stars-produced (or absent, or still-zero)
rating carries a rating in [1, 5]. -/
theorem review_rating_bounds (st : AppState) (insertResp : Option String)
    (reviewsResp : Except String (Option (List Review))) :
    (∀ n ∈ starsValues, 1 ≤ n ∧ n ≤ 5) ∧
    (st.selectedSpot.isSome → st.newReviewRating ≤ 0 →
      (addReviewForSelectedSpot st insertResp reviewsResp).1.error
          = some "Please choose a rating." ∧
      (addReviewForSelectedSpot st insertResp reviewsResp).2 = []) ∧
    ((∃ n ∈ starsValues, st.newReviewRating = (n : ℚ)) →
      ∀ row, Request.insertReview row ∈
          (addReviewForSelectedSpot st insertResp reviewsResp).2 →
        1 ≤ row.rating ∧ row.rating ≤ 5) ∧
    (∀ lat lng nm d (r : Option ℚ) s1 s2,
      (r = none ∨ r = some 0 ∨ ∃ n ∈ starsValues, r = some (n : ℚ)) →
      ∀ row, Request.insertReview row ∈ (createSpotAt st lat lng nm d r s1 s2).2 →
        1 ≤ row.rating ∧ row.rating ≤ 5) := by
  refine ⟨by decide, ?_, ?_, ?_⟩
  · intro hsome hle
    cases hsel : st.selectedSpot with
    | none => rw [hsel] at hsome; cases hsome
    | some sel => simp [addReviewForSelectedSpot, hsel, hle]
  · rintro ⟨n, hn, hrat⟩ row hrow
    have hb : 1 ≤ (n : ℚ) ∧ (n : ℚ) ≤ 5 := by
      simp [starsValues] at hn
      rcases hn with rfl | rfl | rfl | rfl | rfl <;> norm_num
    have hpos : ¬ st.newReviewRating ≤ 0 := by
      rw [hrat]; push_neg; linarith [hb.1]
    cases hsel : st.selectedSpot with
    | none => simp [addReviewForSelectedSpot, hsel] at hrow
    | some sel =>
      cases insertResp with
      | some m =>
        simp [addReviewForSelectedSpot, hsel, hpos] at hrow
        rw [hrow, hrat]
        exact hb
      | none =>
        cases reviewsResp <;>
          · simp [addReviewForSelectedSpot, hsel, hpos, loadReviews] at hrow
            rw [hrow, hrat]
            exact hb
  · rintro lat lng nm d r s1 s2 hr row hrow
    by_cases hname : jsTrim nm = ""
    · simp [createSpotAt, hname] at hrow
    · cases s1 with
      | error e => simp [createSpotAt, hname] at hrow
      | ok spot =>
        by_cases hpos : 0 < r.getD 0
        · have hrow' : row = ⟨spot.id, r.getD 0⟩ := by
            cases s2 <;> simpa [createSpotAt, hname, hpos] using hrow
          rcases hr with rfl | rfl | ⟨n, hn, rfl⟩
          · simp at hpos
          · simp at hpos
          · have hb : 1 ≤ (n : ℚ) ∧ (n : ℚ) ≤ 5 := by
              simp [starsValues] at hn
              rcases hn with rfl | rfl | rfl | rfl | rfl <;> norm_num
            rw [hrow']
            simpa using hb
        · simp [createSpotAt, hname, hpos] at hrow

/-- Witness for C7: in a state whose rating came from the Stars control,
the issued review insert is bounded, and the zero rating is rejected. -/
theorem review_rating_bounds_witness :
    (1 ≤ (3 : ℕ) ∧ (3 : ℕ) ≤ 5) ∧
    ((addReviewForSelectedSpot
        { stSel with newReviewRating := 0 } none (.ok none)).1.error
      = some "Please choose a rating.") ∧
    (1 ≤ (⟨"s1", 3⟩ : ReviewInsertRow).rating ∧
      (⟨"s1", 3⟩ : ReviewInsertRow).rating ≤ 5) :=
  ⟨(review_rating_bounds stSel none (.ok none)).1 3 (by decide),
   ((review_rating_bounds { stSel with newReviewRating := 0 } none (.ok none)).2.1
      (by decide) (by norm_num)).1,
   (review_rating_bounds stSel none (.ok none)).2.2.1
      ⟨3, by decide, by norm_num [stSel]⟩ ⟨"s1", 3⟩ (by decide)⟩

/-- C8 counterexample: the map screen's reload listing path caps at 500
rows while the `listSpots` helper of `src/libs/spots.ts` defaults to 100
(and takes its limit from the caller), so the row limit is not the same
fixed limit in every listing code path. -/
theorem listing_limits_differ :
    (reload stEx (.ok none)).2 = [Request.selectSpots false 500] ∧
    listSpots listSpotsDefaultLimit = [Request.selectSpots false 100] ∧
    (500 : ℕ) ≠ 100 := by
  decide

/-- C8 amended: every listing request orders by `created_at` descending;
the reload path always caps at 500, while `listSpots` caps at its
caller-supplied limit, whose default is 100. -/
theorem listing_order_and_limit (st : AppState)
    (resp : Except String (Option (List Spot))) (limit : ℕ) :
    (reload st resp).2 = [Request.selectSpots false 500] ∧
    listSpots limit = [Request.selectSpots false limit] ∧
    listSpotsDefaultLimit = 100 := by
  refine ⟨?_, rfl, rfl⟩
  cases resp <;> rfl

/-- C9: whenever the backend answers reload, delete or the spot insert of
create with an error, the handler surfaces exactly the backend message
and leaves the local spots list (and the detail-view state) unchanged. -/
theorem backend_error_surfaces_message (st : AppState) (msg id : String)
    (lat lng : ℚ) (name : String) (description : Option String)
    (initialRating : Option ℚ) (rresp : Option String)
    (hname : jsTrim name ≠ "") :
    ((reload st (.error msg)).1.error = some msg ∧
      (reload st (.error msg)).1.spots = st.spots ∧
      (reload st (.error msg)).1.selectedSpot = st.selectedSpot ∧
      (reload st (.error msg)).1.detailsOpen = st.detailsOpen ∧
      (reload st (.error msg)).1.spotReviews = st.spotReviews) ∧
    ((deleteSpotById st id (some msg)).1.error = some msg ∧
      (deleteSpotById st id (some msg)).1.spots = st.spots ∧
      (deleteSpotById st id (some msg)).1.selectedSpot = st.selectedSpot ∧
      (deleteSpotById st id (some msg)).1.detailsOpen = st.detailsOpen ∧
      (deleteSpotById st id (some msg)).1.spotReviews = st.spotReviews) ∧
    ((createSpotAt st lat lng name description initialRating
        (.error msg) rresp).1.error = some msg ∧
      (createSpotAt st lat lng name description initialRating
        (.error msg) rresp).1.spots = st.spots ∧
      (createSpotAt st lat lng name description initialRating
        (.error msg) rresp).1.selectedSpot = st.selectedSpot ∧
      (createSpotAt st lat lng name description initialRating
        (.error msg) rresp).1.detailsOpen = st.detailsOpen ∧
      (createSpotAt st lat lng name description initialRating
        (.error msg) rresp).1.spotReviews = st.spotReviews) := by
  refine ⟨⟨rfl, rfl, rfl, rfl, rfl⟩, ⟨rfl, rfl, rfl, rfl, rfl⟩, ?_⟩
  simp [createSpotAt, hname]

/-- Witness for C9 at a concrete failing call of each operation. -/
theorem backend_error_surfaces_message_witness :
    (reload stEx (.error "down")).1.error = some "down" ∧
    (deleteSpotById stEx "s2" (some "down")).1.spots = stEx.spots ∧
    (createSpotAt stEx 1 2 "Ledge" none none (.error "down") none).1.error
      = some "down" ∧
    (createSpotAt stEx 1 2 "Ledge" none none (.error "down") none).1.spots
      = stEx.spots :=
  ⟨(backend_error_surfaces_message stEx "down" "s2" 1 2 "Ledge" none none none
      (by decide)).1.1,
   (backend_error_surfaces_message stEx "down" "s2" 1 2 "Ledge" none none none
      (by decide)).2.1.2.1,
   (backend_error_surfaces_message stEx "down" "s2" 1 2 "Ledge" none none none
      (by decide)).2.2.1,
   (backend_error_surfaces_message stEx "down" "s2" 1 2 "Ledge" none none none
      (by decide)).2.2.2.1⟩

end SkateSpotApp
